import Mathlib

/-!
Verification development for the google-workspaces-intake service.

This file gives a shallow embedding, in Lean 4, of the deterministic core of
the repository: the Python-value model used by payloads and metadata, the
mailbox cursor store (`app/core/cursor_store.py`), the idempotency store
(`app/core/idempotency_store.py`), the decision router
(`app/services/router.py`), the Gmail normalizer
(`app/services/normalizer.py`), the structured event logger
(`app/core/logging.py`), and the canonical ingest pipeline plus the Gmail
endpoint (`app/main.py`).  Stateful Python code becomes explicit state
passing; raised exceptions become `Except`-style results; wall-clock time and
generated identifiers (uuid4) become explicit parameters.  Unicode-sensitive
string operations (`str.lower`, `str.strip`, `int(...)`) are modelled over
their ASCII behavior, which covers every value these components handle.
-/

set_option maxRecDepth 20000

namespace Intake

/-- Model of a Python value as it appears in request payloads and metadata
(JSON-shaped data).  Dictionaries are association lists in insertion order. -/
inductive PyVal where
  | pyNone : PyVal
  | pyBool : Bool → PyVal
  | pyInt : Int → PyVal
  | pyStr : String → PyVal
  | pyList : List PyVal → PyVal
  | pyDict : List (String × PyVal) → PyVal

/-- Python truthiness (`bool(v)`): None and False are falsy, numbers are falsy
iff zero, strings and containers are falsy iff empty. -/
def pyTruthy : PyVal → Bool
  | .pyNone => false
  | .pyBool b => b
  | .pyInt n => n != 0
  | .pyStr s => s ≠ ""
  | .pyList xs => !xs.isEmpty
  | .pyDict kvs => !kvs.isEmpty

/-- First-match association-list lookup, the model of `dict.get` /
`dict[...]` for our insertion-ordered dictionaries. -/
def assocFind {α : Type} (k : String) : List (String × α) → Option α
  | [] => none
  | (k2, v) :: rest => if k2 = k then some v else assocFind k rest

/-- Association-list update: replaces the first binding of `k`, or appends a
new binding when the key is absent (the model of `d[k] = v`). -/
def assocSet {α : Type} (k : String) (v : α) : List (String × α) → List (String × α)
  | [] => [(k, v)]
  | (k2, v2) :: rest => if k2 = k then (k, v) :: rest else (k2, v2) :: assocSet k v rest

/-- `dict.get(k)` returning Python `None` when the key is absent. -/
def pyGet (kvs : List (String × PyVal)) (k : String) : PyVal :=
  (assocFind k kvs).getD PyVal.pyNone

/-- ASCII lower-casing of one character (the lowering table of Python
`str.lower` on the ASCII range handled by this service). -/
def pyLowerChar : Char → Char
  | 'A' => 'a' | 'B' => 'b' | 'C' => 'c' | 'D' => 'd' | 'E' => 'e' | 'F' => 'f'
  | 'G' => 'g' | 'H' => 'h' | 'I' => 'i' | 'J' => 'j' | 'K' => 'k' | 'L' => 'l'
  | 'M' => 'm' | 'N' => 'n' | 'O' => 'o' | 'P' => 'p' | 'Q' => 'q' | 'R' => 'r'
  | 'S' => 's' | 'T' => 't' | 'U' => 'u' | 'V' => 'v' | 'W' => 'w' | 'X' => 'x'
  | 'Y' => 'y' | 'Z' => 'z'
  | c => c

/-- `str.lower()` over the ASCII range. -/
def pyLower (s : String) : String := String.mk (s.toList.map pyLowerChar)

/-- The whitespace class stripped by Python `str.strip()` (ASCII part). -/
def isPySpace (c : Char) : Bool :=
  c = ' ' || c = '\t' || c = '\n' || c = '\r' || c = '\x0b' || c = '\x0c'

/-- Drop leading and trailing whitespace from a character list. -/
def stripChars (l : List Char) : List Char :=
  ((l.dropWhile isPySpace).reverse.dropWhile isPySpace).reverse

/-- `str.strip()`: drop leading and trailing whitespace. -/
def pyStrip (s : String) : String := String.mk (stripChars s.toList)

def isAsciiDigit (c : Char) : Bool := '0' ≤ c && c ≤ '9'

def digitVal (c : Char) : Nat := c.toNat - 48

/-- Parse the tail of a Python integer literal: digits with single
underscores allowed only between digits, as accepted by `int(...)`. -/
def parsePyDigitsRest (acc : Nat) : List Char → Option Nat
  | [] => some acc
  | '_' :: c :: cs =>
      if isAsciiDigit c then parsePyDigitsRest (acc * 10 + digitVal c) cs else none
  | c :: cs =>
      if isAsciiDigit c then parsePyDigitsRest (acc * 10 + digitVal c) cs else none

/-- Parse a nonempty run of digits (with legal underscores) to a natural. -/
def parsePyNat : List Char → Option Nat
  | [] => none
  | c :: cs => if isAsciiDigit c then parsePyDigitsRest (digitVal c) cs else none

/-- Python `int(s)` on an already-stripped string: optional sign followed by
digits (underscore separators allowed between digits); anything else raises
`ValueError`, modelled as `none`. -/
def parsePyInt (s : String) : Option Int :=
  match s.toList with
  | '+' :: cs => (parsePyNat cs).map Int.ofNat
  | '-' :: cs => (parsePyNat cs).map (fun n => -(n : Int))
  | cs => (parsePyNat cs).map Int.ofNat

/-- `_parse_history_id` from `app/core/cursor_store.py`: `None` stays absent;
otherwise strip, treat the empty result as unparseable, then `int(...)` with
`ValueError` mapped to `None`. -/
def parseHistoryId : Option String → Option Int
  | none => none
  | some h =>
      let s := pyStrip h
      if s = "" then none else parsePyInt s

/-- Mailbox-key normalization used throughout the cursor store:
`mailbox.strip().lower()`. -/
def normMailbox (mailbox : String) : String := pyLower (pyStrip mailbox)

/-- The `mailbox_cursor` table of the SQLite backend: one row per normalized
mailbox, holding a nullable `history_id` column. -/
def CursorStore : Type := List (String × Option Int)

/-- Result record of `check_late` (`CursorCheck` dataclass). -/
structure CursorCheck where
  mailbox : String
  incoming_history_id : Option Int
  current_history_id : Option Int
  is_late : Bool
  reason : String
  deriving DecidableEq, Repr

/-- `SQLiteMailboxCursorStore.get_cursor`: look the normalized mailbox up and
return the stored (possibly NULL) history id; a missing row and a NULL value
are both reported as absent. -/
def getCursor (st : CursorStore) (mailbox : String) : Option Int :=
  match assocFind (normMailbox mailbox) st with
  | none => none
  | some v => v

/-- `SQLiteMailboxCursorStore.check_late`, translated clause by clause. -/
def checkLate (st : CursorStore) (mailbox : String) (incomingHistoryId : Option String) :
    CursorCheck :=
  let m := normMailbox mailbox
  let incoming := parseHistoryId incomingHistoryId
  let current := getCursor st m
  if incomingHistoryId.isSome && incoming.isNone then
    { mailbox := m, incoming_history_id := none, current_history_id := current,
      is_late := false, reason := "INVALID_HISTORY_ID" }
  else
    match incoming with
    | none =>
        { mailbox := m, incoming_history_id := none, current_history_id := current,
          is_late := false, reason := "NO_INCOMING_HISTORY_ID" }
    | some inc =>
        match current with
        | none =>
            { mailbox := m, incoming_history_id := some inc, current_history_id := none,
              is_late := false, reason := "NO_CURSOR" }
        | some cur =>
            if inc < cur then
              { mailbox := m, incoming_history_id := some inc, current_history_id := some cur,
                is_late := true, reason := "BEHIND_CURSOR" }
            else if inc = cur then
              { mailbox := m, incoming_history_id := some inc, current_history_id := some cur,
                is_late := false, reason := "AT_CURSOR" }
            else
              { mailbox := m, incoming_history_id := some inc, current_history_id := some cur,
                is_late := false, reason := "OK" }

/-- `SQLiteMailboxCursorStore.try_advance`: parse failure refuses; a missing
row inserts; an existing row advances only when the stored value is NULL or
strictly smaller; otherwise the store is left untouched. -/
def tryAdvance (st : CursorStore) (mailbox : String) (newHistoryId : Option String) :
    Bool × CursorStore :=
  let m := normMailbox mailbox
  match parseHistoryId newHistoryId with
  | none => (false, st)
  | some newVal =>
      match assocFind m st with
      | none => (true, assocSet m (some newVal) st)
      | some current =>
          match current with
          | none => (true, assocSet m (some newVal) st)
          | some cur =>
              if newVal > cur then (true, assocSet m (some newVal) st)
              else (false, st)

mutual

/-- Python `repr(v)` for the modelled value shapes (ASCII strings without
embedded quotes, which is all this service produces). -/
def pyRepr : PyVal → String
  | .pyNone => "None"
  | .pyBool true => "True"
  | .pyBool false => "False"
  | .pyInt n => toString n
  | .pyStr s => "\x27" ++ s ++ "\x27"
  | .pyList xs => "[" ++ pyReprSeq xs ++ "]"
  | .pyDict kvs => "\x7b" ++ pyReprEntries kvs ++ "\x7d"

/-- Comma-joined reprs of a list body. -/
def pyReprSeq : List PyVal → String
  | [] => ""
  | [x] => pyRepr x
  | x :: y :: xs => pyRepr x ++ ", " ++ pyReprSeq (y :: xs)

/-- Comma-joined reprs of a dict body. -/
def pyReprEntries : List (String × PyVal) → String
  | [] => ""
  | [(k, v)] => "\x27" ++ k ++ "\x27: " ++ pyRepr v
  | (k, v) :: kv :: kvs => "\x27" ++ k ++ "\x27: " ++ pyRepr v ++ ", " ++ pyReprEntries (kv :: kvs)

end

mutual

/-- `json.dumps` of a modelled value (ASCII strings without embedded quotes,
`default=str` never triggered for the shapes the service logs). -/
def pyJson : PyVal → String
  | .pyNone => "null"
  | .pyBool true => "true"
  | .pyBool false => "false"
  | .pyInt n => toString n
  | .pyStr s => "\x22" ++ s ++ "\x22"
  | .pyList xs => "[" ++ pyJsonSeq xs ++ "]"
  | .pyDict kvs => "\x7b" ++ pyJsonDict kvs ++ "\x7d"

/-- Comma-joined JSON renderings of a list body. -/
def pyJsonSeq : List PyVal → String
  | [] => ""
  | [x] => pyJson x
  | x :: y :: xs => pyJson x ++ ", " ++ pyJsonSeq (y :: xs)

/-- Comma-joined JSON renderings of a dict body. -/
def pyJsonDict : List (String × PyVal) → String
  | [] => ""
  | [(k, v)] => "\x22" ++ k ++ "\x22: " ++ pyJson v
  | (k, v) :: kv :: kvs => "\x22" ++ k ++ "\x22: " ++ pyJson v ++ ", " ++ pyJsonDict (kv :: kvs)

end

/-- Python `str(v)`: identity on strings, `repr` otherwise. -/
def pyToString : PyVal → String
  | .pyStr s => s
  | v => pyRepr v

/-- Python substring containment `needle in hay`. -/
def strContains (hay needle : String) : Bool :=
  hay.toList.tails.any (fun t => needle.toList.isPrefixOf t)

/-- Canonical `Event` (`app/domain/schemas.py`), restricted to the fields the
modelled code paths read.  The pipeline always constructs events with
`gmail = None` and `ordering = None`, so those fields are omitted; the
`timestamp` is the (explicit) clock value at construction. -/
structure Event where
  event_id : String
  event_type : String
  source : String
  timestamp : Int
  actor : Option String
  payload : PyVal
  metadata : List (String × PyVal)
  is_late_event : Bool
  late_reason : Option String

/-- `Decision` (`app/domain/schemas.py`), restricted to the fields the router
populates and the claims mention.  `decision_id` is a fresh uuid4 in the
source — nondeterministic and never compared — so it is not modelled. -/
structure Decision where
  event_id : String
  route : String
  reason : String
  risk_level : String
  proposed_action : List (String × PyVal)
  decision_source : Option String

/-- String option to Python value (absent becomes `None`). -/
def optPy : Option String → PyVal
  | none => .pyNone
  | some s => .pyStr s

/-- `_get_text` from `app/services/router.py`: the payload's `text` entry
when the payload is a dict and that entry is a string, otherwise empty
(a falsy payload is first replaced by the empty dict, with the same result). -/
def getText (e : Event) : String :=
  match e.payload with
  | .pyDict kvs =>
      match assocFind "text" kvs with
      | some (.pyStr t) => t
      | _ => ""
  | _ => ""

def securityKeywords : List String := ["password", "credential", "security", "breach"]

/-- The `urgency` payload field read by rule D1.2/D1.3:
`event.payload.get("urgency")` when the payload is a dict, `None` otherwise. -/
def urgencyOf (e : Event) : PyVal :=
  match e.payload with
  | .pyDict kvs => pyGet kvs "urgency"
  | _ => .pyNone

/-- `route_event` from `app/services/router.py`: the fixed ordered rule
stack D0 (late-event no-op), D1.1 (security escalation), D1.2 (missing
urgency), D1.3 (draft ticket). -/
def routeEvent (e : Event) : Decision :=
  if e.is_late_event then
    { event_id := e.event_id
      route := "NOOP_LATE_EVENT"
      reason := "Late/out-of-order event: " ++
        (match e.late_reason with
         | some r => if r ≠ "" then r else "UNKNOWN"
         | none => "UNKNOWN")
      risk_level := "low"
      proposed_action := [("type", .pyStr "noop"), ("reason", .pyStr "late_event"),
        ("late_reason", optPy e.late_reason)]
      decision_source := some "fallback" }
  else
    let text := pyLower (getText e)
    if securityKeywords.any (fun k => strContains text k) then
      { event_id := e.event_id
        route := "ESCALATE_HUMAN"
        reason := "Security-related keyword detected"
        risk_level := "high"
        proposed_action := []
        decision_source := none }
    else
      let urgency := urgencyOf e
      if !pyTruthy urgency then
        { event_id := e.event_id
          route := "REQUEST_MORE_INFO"
          reason := "Missing required field: urgency"
          risk_level := "medium"
          proposed_action := [("question", .pyStr "How urgent is this? (low / medium / high)"),
            ("missing_fields", .pyList [.pyStr "urgency"])]
          decision_source := none }
      else
        let summary := if text ≠ "" then text.take 80 else "Support request"
        { event_id := e.event_id
          route := "CREATE_DRAFT_TICKET"
          reason := "Standard support request"
          risk_level := "low"
          proposed_action := [("type", .pyStr "create_ticket_draft"),
            ("queue", .pyStr "IT"),
            ("priority", .pyStr (pyLower (pyToString urgency))),
            ("summary", .pyStr summary),
            ("description", match e.payload with
              | .pyDict kvs => .pyDict kvs
              | _ => .pyDict [("text", .pyStr text)])]
          decision_source := none }

/-- One row of the `idempotency` table (`app/core/idempotency_store.py`,
SQLite backend): status, nullable owner, nullable lease-expiry instant,
creation/update instants, the stored event, and the last error.  Timestamps
are modelled as integer instants on the explicit clock. -/
structure IdemRecord where
  status : String
  owner_id : Option String
  lease_until : Option Int
  created_at : Int
  updated_at : Int
  event : Event
  last_error : Option String

/-- The `idempotency` table: at most one row per key. -/
def IdemStore : Type := List (String × IdemRecord)

/-- `ClaimResult` dataclass from `app/core/idempotency_store.py`. -/
structure ClaimResult where
  claimed : Bool
  status : String
  owner_id : Option String
  lease_until : Option Int
  existing_event : Option Event

/-- Lease-expiry test used by `try_claim`: a stored lease is expired when it
is at or before `now`; a NULL lease counts as expired.  (The source also
treats an unparsable stored timestamp as expired; the model stores instants
directly, so that branch has no counterpart.) -/
def leaseExpired (leaseUntil : Option Int) (now : Int) : Bool :=
  match leaseUntil with
  | some l => l ≤ now
  | none => true

/-- `SQLiteIdempotencyStore.try_claim`, translated branch by branch.  The
caller-chosen or generated worker id becomes the explicit `ownerId`; `now`
is the clock instant; the new lease expires at `now + leaseSeconds`. -/
def tryClaim (st : IdemStore) (key : String) (event : Event)
    (leaseSeconds : Int) (ownerId : String) (now : Int) : ClaimResult × IdemStore :=
  let leaseUntil := now + leaseSeconds
  match assocFind key st with
  | none =>
      ({ claimed := true, status := "claimed", owner_id := some ownerId,
         lease_until := some leaseUntil, existing_event := none },
       assocSet key
         { status := "claimed", owner_id := some ownerId, lease_until := some leaseUntil,
           created_at := now, updated_at := now, event := event, last_error := none } st)
  | some r =>
      if r.status = "completed" then
        ({ claimed := false, status := "completed", owner_id := r.owner_id,
           lease_until := r.lease_until, existing_event := some r.event }, st)
      else if r.status = "claimed" && !leaseExpired r.lease_until now then
        ({ claimed := false, status := "claimed", owner_id := r.owner_id,
           lease_until := r.lease_until, existing_event := some r.event }, st)
      else
        ({ claimed := true, status := "claimed", owner_id := some ownerId,
           lease_until := some leaseUntil, existing_event := some r.event },
         assocSet key
           { status := "claimed", owner_id := some ownerId, lease_until := some leaseUntil,
             created_at := r.created_at, updated_at := now, event := event,
             last_error := none } st)

/-- `SQLiteIdempotencyStore.mark_completed`: update-in-place when the row
exists (SQL UPDATE touches no row otherwise). -/
def markCompleted (st : IdemStore) (key : String) (ownerId : String) (now : Int) : IdemStore :=
  match assocFind key st with
  | none => st
  | some r =>
      assocSet key
        { r with status := "completed", owner_id := some ownerId, lease_until := none,
                 updated_at := now, last_error := none } st

/-- `SQLiteIdempotencyStore.mark_failed`: like `mark_completed` but records
the error, truncated to 500 characters. -/
def markFailed (st : IdemStore) (key : String) (ownerId : String) (error : String)
    (now : Int) : IdemStore :=
  match assocFind key st with
  | none => st
  | some r =>
      assocSet key
        { r with status := "failed", owner_id := some ownerId, lease_until := none,
                 updated_at := now, last_error := some (error.take 500) } st

/-- `SQLiteIdempotencyStore.get`: the stored event for a key, regardless of
its status. -/
def idemGet (st : IdemStore) (key : String) : Option Event :=
  (assocFind key st).map (fun r => r.event)

/-- State of the structured event logger's two output channels
(`app/core/logging.py`): the console stream and the durable JSON-lines
file. -/
structure LogState where
  console : List String
  file : List String
  deriving DecidableEq, Repr

/-- The single JSON line built by `log_event`:
`json.dumps` of the merge of ts and event name with the caller fields
(callers never pass colliding `ts`/`event` keys). -/
def mkLogLine (ts : String) (eventName : String) (fields : List (String × PyVal)) : String :=
  pyJson (.pyDict (("ts", PyVal.pyStr ts) :: ("event", PyVal.pyStr eventName) :: fields))

/-- `log_event` from `app/core/logging.py`.  The console emission
(`logger.info`) happens first; then the durable file is opened and appended
with no exception handling, so when the open/append fails (`fileAppendOk =
false`) the error propagates to the caller — the second component carries
the escaped exception. -/
def logEvent (fileAppendOk : Bool) (st : LogState) (ts : String) (eventName : String)
    (fields : List (String × PyVal)) : LogState × Option String :=
  let line := mkLogLine ts eventName fields
  let afterConsole : LogState := { st with console := st.console ++ [line] }
  if fileAppendOk then
    ({ afterConsole with file := afterConsole.file ++ [line] }, none)
  else
    (afterConsole, some "OSError: could not open or append logs/events.jsonl")

/-- Module-level startup effects of `app/main.py`, in source order: build the
FastAPI application object, acquire the logger, construct the idempotency
store, construct the mailbox cursor store.  `loadRoutingConfig` and
`validateConfigs` name the startup-time configuration gate that
`app/core/config_loader.py` provides and `test_startup_config_validation.py`
expects (as `main._startup_validate_configs`). -/
inductive StartupAction where
  | createApp
  | getLogger
  | getIdemStore
  | getCursorStore
  | loadRoutingConfig
  | validateConfigs
  deriving DecidableEq, Repr

/-- The actual module-level statements of `app/main.py` (lines 16-23): no
configuration loading or validation occurs before the HTTP surface exists. -/
def mainStartupActions : List StartupAction :=
  [.createApp, .getLogger, .getIdemStore, .getCursorStore]

/-- `FailureRecord` dataclass from `app/core/failure_sink.py`. -/
structure FailureRec where
  timestamp : String
  stage : String
  error_code : String
  message : String
  context : List (String × PyVal)

/-- `JsonlFileFailureSink.notify`: append exactly one record to the
failures file. -/
def notifySink (sinkFile : List FailureRec) (r : FailureRec) : List FailureRec :=
  sinkFile ++ [r]

/-- `IngestRequest` (`app/domain/schemas.py`). -/
structure IngestRequest where
  event_type : String
  source : String
  actor : Option String
  payload : List (String × PyVal)
  metadata : List (String × PyVal)

/-- `GmailIngestRequest` (`app/domain/schemas.py`), restricted to the fields
the endpoint logic reads (`source` is the fixed literal `gmail`; the two
trigger timestamps and `raw_trigger` are audit-only metadata). -/
structure GmailIngestRequest where
  mailbox : String
  trigger_type : String
  message_id : Option String
  thread_id : Option String
  history_id : Option String
  trace_id : String

/-- `IngestResponse`: the event/decision pair returned on success. -/
structure IngestResponse where
  event : Event
  decision : Decision

/-- A raised Python exception as seen at the endpoint boundary: either a
deliberate `HTTPException` or an escaped error re-raised by the pipeline. -/
inductive PipeError where
  | http (statusCode : Nat) (detail : String)
  | exn (msg : String)
  deriving DecidableEq, Repr

/-- The mutable world `_process_ingest` touches: both stores, the failure
sink file, and call counters for the three effectful collaborators
(`idem_store.try_claim`, `execute_decision`, `cursor_store.try_advance`). -/
structure ProcState where
  idem : IdemStore
  cursor : CursorStore
  sinkFile : List FailureRec
  claimCalls : Nat
  actCalls : Nat
  advanceCalls : Nat

/-- Python truthiness of an optional string (`if x:` on `str | None`). -/
def optTruthy : Option String → Bool
  | none => false
  | some s => s ≠ ""

/-- The `late_reason` metadata value as the pipeline stores it on the event
(`Optional[str]`; only strings or `None` ever occupy this key). -/
def metaGetStr (md : List (String × PyVal)) (k : String) : Option String :=
  match pyGet md k with
  | .pyStr s => some s
  | _ => none

/-- The candidate canonical `Event` `_process_ingest` builds before the
claim: a fresh uuid4 event id (explicit here), the current clock instant,
the request fields verbatim, and the late-event flags recovered from the
request metadata (`bool(metadata.get("is_late_event", False))` and
`metadata.get("late_reason")`). -/
def candidateEvent (req : IngestRequest) (newEventId : String) (now : Int) : Event :=
  { event_id := newEventId, event_type := req.event_type, source := req.source,
    timestamp := now, actor := req.actor, payload := .pyDict req.payload,
    metadata := req.metadata,
    is_late_event := pyTruthy (pyGet req.metadata "is_late_event"),
    late_reason := metaGetStr req.metadata "late_reason" }

/-- `_process_ingest` from `app/main.py`, translated gate by gate.
Explicit parameters replace ambient effects: `shadowMode` is the parsed
`SHADOW_MODE` flag, `actFail` is `some msg` when `execute_decision` raises
(artifact-store I/O failure) and `none` when it succeeds, `ownerId` is the
worker id `try_claim` ends up using, `now` the clock, `newEventId` the
generated uuid4.  Structured logging does not alter this state and is not
tracked here; note that no branch touches `sinkFile`, faithful to the
source, which never constructs or notifies a failure sink. -/
def processIngest (req : IngestRequest) (idempotencyKey : Option String)
    (shadowMode : Bool) (actFail : Option String) (ownerId : String)
    (now : Int) (newEventId : String) (st : ProcState) :
    Except PipeError IngestResponse × ProcState :=
  -- Gate 1: `if not idempotency_key` — absent or empty header is rejected.
  if !optTruthy idempotencyKey then
    (.error (.http 400 "Missing Idempotency-Key header"), st)
  else
    let key := idempotencyKey.getD ""
    let candidate := candidateEvent req newEventId now
    -- Gate 2: shared idempotency claim.
    let claimOut := tryClaim st.idem key candidate 120 ownerId now
    let claim := claimOut.1
    let st1 : ProcState := { st with idem := claimOut.2, claimCalls := st.claimCalls + 1 }
    if !claim.claimed then
      -- Duplicate responder path: recover the event, decide, and Act anyway
      -- (shadow mode is deliberately not enforced here); an Act failure is
      -- logged and swallowed, and the HTTP response is returned regardless.
      let existing :=
        match claim.existing_event with
        | some e => e
        | none =>
            match idemGet st1.idem key with
            | some e => e
            | none => candidate
      let decision := routeEvent existing
      let st2 : ProcState := { st1 with actCalls := st1.actCalls + 1 }
      (.ok { event := existing, decision := decision }, st2)
    else
      let event := candidate
      let decision := routeEvent event
      if event.is_late_event then
        -- Governance no-op for late events: complete the key, skip Act and cursor.
        (.ok { event := event, decision := decision },
         { st1 with idem := markCompleted st1.idem key (claim.owner_id.getD "unknown") now })
      else if shadowMode then
        -- Shadow-mode no-op: complete the key, skip Act and cursor.
        (.ok { event := event, decision := decision },
         { st1 with idem := markCompleted st1.idem key (claim.owner_id.getD "unknown") now })
      else
        match actFail with
        | some err =>
            -- Act raised: mark failed (truncated error) and re-raise.
            (.error (.exn err),
             { st1 with actCalls := st1.actCalls + 1,
                        idem := markFailed st1.idem key (claim.owner_id.getD "unknown") err now })
        | none =>
            let st2 : ProcState :=
              { st1 with actCalls := st1.actCalls + 1,
                         idem := markCompleted st1.idem key (claim.owner_id.getD "unknown") now }
            -- Mailbox cursor advance: Gmail only, only after completion.
            if req.source = "gmail" then
              let mb := pyGet req.payload "mailbox"
              let hid := pyGet req.payload "history_id"
              if pyTruthy mb && pyTruthy hid then
                let adv := tryAdvance st2.cursor (pyToString mb) (some (pyToString hid))
                (.ok { event := event, decision := decision },
                 { st2 with cursor := adv.2, advanceCalls := st2.advanceCalls + 1 })
              else
                (.ok { event := event, decision := decision }, st2)
            else
              (.ok { event := event, decision := decision }, st2)

/-- `_gmail_idempotency_key` from `app/main.py`: message id wins over history
id; with neither, raise 400 Bad Request. -/
def gmailIdempotencyKey (g : GmailIngestRequest) : Except PipeError String :=
  let mailbox := pyLower (pyStrip g.mailbox)
  if optTruthy g.message_id then
    .ok ("gmail:mailbox=" ++ mailbox ++ ":message_id=" ++ g.message_id.getD "")
  else if optTruthy g.history_id then
    .ok ("gmail:mailbox=" ++ mailbox ++ ":history_id=" ++ g.history_id.getD "")
  else
    .error (.http 400 "Gmail ingest requires message_id or history_id for deterministic idempotency")

/-- Integer option to Python value. -/
def optIntPy : Option Int → PyVal
  | none => .pyNone
  | some n => .pyInt n

/-- `normalize_gmail_ingest` (`app/services/normalizer.py`): reshape the
trigger envelope to the canonical request.  The audit-only `raw_trigger` and
`ordering` metadata entries (timestamps) are outside the modelled state and
omitted; everything the pipeline reads is carried verbatim. -/
def normalizeGmailIngest (g : GmailIngestRequest) : IngestRequest :=
  { event_type := "gmail_ingest"
    source := "gmail"
    actor := none
    payload := [("mailbox", .pyStr g.mailbox), ("trigger_type", .pyStr g.trigger_type),
      ("message_id", optPy g.message_id), ("thread_id", optPy g.thread_id),
      ("history_id", optPy g.history_id)]
    metadata := [("trace_id", .pyStr g.trace_id),
      ("missing_message_id", .pyBool g.message_id.isNone),
      ("missing_thread_id", .pyBool g.thread_id.isNone),
      ("missing_history_id", .pyBool g.history_id.isNone)] }

/-- `ingest_gmail` from `app/main.py`: derive the idempotency key (a failure
is logged and re-raised before any claim attempt), run the read-only cursor
check, normalize, record the lateness determination in the canonical
metadata, and hand off to the canonical pipeline. -/
def ingestGmail (g : GmailIngestRequest) (shadowMode : Bool) (actFail : Option String)
    (ownerId : String) (now : Int) (newEventId : String) (st : ProcState) :
    Except PipeError IngestResponse × ProcState :=
  match gmailIdempotencyKey g with
  | .error e => (.error e, st)
  | .ok key =>
      let cc := checkLate st.cursor g.mailbox g.history_id
      let isLate := cc.is_late
      let lateReason : Option String := if isLate then some cc.reason else none
      let creq := normalizeGmailIngest g
      let md := assocSet "ordering_signal_missing" (PyVal.pyBool g.history_id.isNone) creq.metadata
      let md := assocSet "is_late_event" (PyVal.pyBool isLate) md
      let md := assocSet "late_reason" (optPy lateReason) md
      let md := assocSet "cursor_check"
        (PyVal.pyDict [("incoming_history_id", optIntPy cc.incoming_history_id),
          ("current_history_id", optIntPy cc.current_history_id),
          ("reason", .pyStr cc.reason), ("is_late", .pyBool cc.is_late)]) md
      processIngest { creq with metadata := md } (some key) shadowMode actFail ownerId now
        newEventId st

/-! Concrete fixtures shared by the witness and counterexample theorems. -/

/-- A plain support-request event with mixed-case text and an urgency. -/
def evMixedCase : Event :=
  { event_id := "evt-1", event_type := "support_request", source := "api", timestamp := 0,
    actor := none,
    payload := .pyDict [("text", .pyStr "HELLO WORLD"), ("urgency", .pyStr "High")],
    metadata := [], is_late_event := false, late_reason := none }

/-- An event whose text carries a security keyword. -/
def evSecurity : Event :=
  { evMixedCase with payload := .pyDict [("text", .pyStr "my PassWord leaked")] }

/-- An event with text but no urgency field. -/
def evNoUrgency : Event :=
  { evMixedCase with payload := .pyDict [("text", .pyStr "printer broken")] }

/-- An idempotency row claimed by worker `w0` with a lease until instant 100
and a stale error, for exercising the claim state machine. -/
def recClaimed : IdemRecord :=
  { status := "claimed", owner_id := some "w0", lease_until := some 100,
    created_at := 0, updated_at := 0, event := evMixedCase, last_error := some "old error" }

/-- The same row in the terminal `completed` status. -/
def recCompleted : IdemRecord := { recClaimed with status := "completed" }

/-- The same row in the reclaimable `failed` status. -/
def recFailed : IdemRecord := { recClaimed with status := "failed" }

/-- A fresh pipeline world: empty stores, empty failure sink, all counters
zero. -/
def emptyState : ProcState :=
  { idem := [], cursor := [], sinkFile := [], claimCalls := 0, actCalls := 0,
    advanceCalls := 0 }

/-- A canonical Gmail-sourced ingest request carrying a mailbox and a
history id in the payload. -/
def sampleGmailReq : IngestRequest :=
  { event_type := "gmail_ingest", source := "gmail", actor := none,
    payload := [("mailbox", .pyStr "support@example.com"), ("history_id", .pyStr "101")],
    metadata := [] }

/-- The same request flagged late by the upstream cursor check. -/
def lateGmailReq : IngestRequest :=
  { sampleGmailReq with
    metadata := [("is_late_event", .pyBool true), ("late_reason", .pyStr "BEHIND_CURSOR")] }

/-- A Gmail trigger carrying both identifiers. -/
def gBothIdsReq : GmailIngestRequest :=
  { mailbox := " Support@Example.COM ", trigger_type := "push_notification",
    message_id := some "msg-123", thread_id := some "thr-456", history_id := some "789",
    trace_id := "trace-abc" }

/-- A Gmail trigger carrying only a history id. -/
def gHistOnlyReq : GmailIngestRequest :=
  { gBothIdsReq with message_id := none }

/-- A Gmail trigger carrying neither identifier. -/
def gNoIdsReq : GmailIngestRequest :=
  { gBothIdsReq with message_id := none, history_id := none }

/-! Helper lemmas about the string-normalization and association-list
building blocks. -/

theorem isPySpace_pyLowerChar (c : Char) : isPySpace (pyLowerChar c) = isPySpace c := by
  unfold pyLowerChar
  split <;> rfl

theorem pyLowerChar_lower_or_fix (c : Char) :
    pyLowerChar c = c ∨ pyLowerChar c ∈
      ['a', 'b', 'c', 'd', 'e', 'f', 'g', 'h', 'i', 'j', 'k', 'l', 'm',
       'n', 'o', 'p', 'q', 'r', 's', 't', 'u', 'v', 'w', 'x', 'y', 'z'] := by
  unfold pyLowerChar
  split <;> simp

theorem pyLowerChar_pyLowerChar (c : Char) :
    pyLowerChar (pyLowerChar c) = pyLowerChar c := by
  rcases pyLowerChar_lower_or_fix c with h | h
  · rw [h, h]
  · generalize pyLowerChar c = d at h ⊢
    fin_cases h <;> rfl

theorem dropWhile_dropWhile {α : Type} (p : α → Bool) (l : List α) :
    List.dropWhile p (List.dropWhile p l) = List.dropWhile p l := by
  induction l with
  | nil => rfl
  | cons a l ih => by_cases h : p a <;> simp [List.dropWhile_cons, h, ih]

theorem head_dropWhile_false {α : Type} (p : α → Bool) (l : List α) (a : α)
    (h : (List.dropWhile p l).head? = some a) : p a = false := by
  induction l with
  | nil => simp [List.dropWhile] at h
  | cons b l ih =>
      by_cases hb : p b
      · rw [List.dropWhile_cons, if_pos hb] at h
        exact ih h
      · rw [List.dropWhile_cons, if_neg hb] at h
        simp only [List.head?_cons, Option.some.injEq] at h
        subst h
        exact Bool.eq_false_iff.mpr hb

theorem dropWhile_eq_self_of_head {α : Type} (p : α → Bool) (l : List α)
    (h : ∀ a, l.head? = some a → p a = false) : List.dropWhile p l = l := by
  cases l with
  | nil => rfl
  | cons b l => simp [List.dropWhile_cons, h b rfl]

theorem getLast_dropWhile {α : Type} (p : α → Bool) (l : List α)
    (h : List.dropWhile p l ≠ []) :
    (List.dropWhile p l).getLast? = l.getLast? := by
  induction l with
  | nil => simp [List.dropWhile] at h
  | cons b l ih =>
      by_cases hb : p b
      · rw [List.dropWhile_cons, if_pos hb] at h ⊢
        rw [ih h]
        cases l with
        | nil => simp [List.dropWhile] at h
        | cons c l2 => rw [List.getLast?_cons_cons]
      · rw [List.dropWhile_cons, if_neg hb]

theorem dropWhile_stripChars (l : List Char) :
    List.dropWhile isPySpace (stripChars l) = stripChars l := by
  unfold stripChars
  apply dropWhile_eq_self_of_head
  intro a ha
  rw [List.head?_reverse] at ha
  by_cases hne :
      List.dropWhile isPySpace ((List.dropWhile isPySpace l).reverse) = []
  · rw [hne] at ha
    simp at ha
  · rw [getLast_dropWhile _ _ hne, List.getLast?_reverse] at ha
    exact head_dropWhile_false _ _ _ ha

theorem stripChars_stripChars (l : List Char) :
    stripChars (stripChars l) = stripChars l := by
  conv_lhs => rw [stripChars]
  rw [dropWhile_stripChars]
  conv_lhs => rw [stripChars]
  rw [List.reverse_reverse, dropWhile_dropWhile]
  rfl

theorem stripChars_map_pyLowerChar (l : List Char) :
    stripChars (l.map pyLowerChar) = (stripChars l).map pyLowerChar := by
  have hp : (isPySpace ∘ pyLowerChar) = isPySpace := by
    funext c
    exact isPySpace_pyLowerChar c
  unfold stripChars
  rw [List.dropWhile_map, hp, ← List.map_reverse, List.dropWhile_map, hp, ← List.map_reverse]

theorem map_pyLowerChar_map (l : List Char) :
    (l.map pyLowerChar).map pyLowerChar = l.map pyLowerChar := by
  rw [List.map_map]
  congr 1
  funext c
  exact pyLowerChar_pyLowerChar c

theorem normMailbox_normMailbox (s : String) :
    normMailbox (normMailbox s) = normMailbox s := by
  show String.mk ((stripChars ((stripChars s.toList).map pyLowerChar)).map pyLowerChar) =
    String.mk ((stripChars s.toList).map pyLowerChar)
  rw [stripChars_map_pyLowerChar, stripChars_stripChars, map_pyLowerChar_map]

theorem assocFind_assocSet_self {α : Type} (k : String) (v : α) (l : List (String × α)) :
    assocFind k (assocSet k v l) = some v := by
  induction l with
  | nil => simp [assocSet, assocFind]
  | cons p rest ih =>
      obtain ⟨k2, v2⟩ := p
      by_cases h : k2 = k
      · simp [assocSet, assocFind, h]
      · simp [assocSet, assocFind, h, ih]

theorem getCursor_assocSet_norm (st : CursorStore) (mailbox : String) (v : Option Int) :
    getCursor (assocSet (normMailbox mailbox) v st) (normMailbox mailbox) = v := by
  unfold getCursor
  rw [normMailbox_normMailbox, assocFind_assocSet_self]

theorem tryClaim_mem_of_claimed (st : IdemStore) (key : String) (ev : Event)
    (ls : Int) (ow : String) (now : Int)
    (h : (tryClaim st key ev ls ow now).1.claimed = true) :
    ∃ r, assocFind key (tryClaim st key ev ls ow now).2 = some r := by
  unfold tryClaim at h ⊢
  rcases hf : assocFind key st with _ | r <;> rw [hf] at h <;> simp only [] at h ⊢
  · exact ⟨_, assocFind_assocSet_self _ _ _⟩
  · by_cases hc : r.status = "completed"
    · simp [hc] at h
    · by_cases ha : (r.status = "claimed" && !leaseExpired r.lease_until now) = true
      · simp [hc, ha] at h
      · simp only [if_neg hc, if_neg ha]
        exact ⟨_, assocFind_assocSet_self _ _ _⟩

theorem markCompleted_status (st : IdemStore) (key : String) (ow : String) (now : Int)
    (h : ∃ r, assocFind key st = some r) :
    ∃ r2, assocFind key (markCompleted st key ow now) = some r2 ∧
      r2.status = "completed" := by
  obtain ⟨r, hr⟩ := h
  unfold markCompleted
  rw [hr]
  exact ⟨_, assocFind_assocSet_self _ _ _, rfl⟩

/-! Pipeline path lemmas: exact results of `processIngest` on the rejection
path, the duplicate-responder path, and the owned late/shadow no-op path. -/

theorem processIngest_rejects_missing_key (req : IngestRequest)
    (idempotencyKey : Option String) (shadow : Bool) (actFail : Option String)
    (ownerId : String) (now : Int) (eid : String) (st : ProcState)
    (hkey : optTruthy idempotencyKey = false) :
    processIngest req idempotencyKey shadow actFail ownerId now eid st =
      (.error (.http 400 "Missing Idempotency-Key header"), st) := by
  unfold processIngest
  rw [hkey]
  rfl

theorem processIngest_duplicate_path (req : IngestRequest) (key : String)
    (shadow : Bool) (actFail : Option String) (ownerId : String) (now : Int)
    (eid : String) (st : ProcState)
    (hkey : key ≠ "")
    (hclaim : (tryClaim st.idem key (candidateEvent req eid now) 120 ownerId now).1.claimed
      = false) :
    (processIngest req (some key) shadow actFail ownerId now eid st).2 =
      { st with idem := (tryClaim st.idem key (candidateEvent req eid now) 120 ownerId now).2,
                claimCalls := st.claimCalls + 1, actCalls := st.actCalls + 1 } ∧
    ∃ resp, (processIngest req (some key) shadow actFail ownerId now eid st).1 = .ok resp ∧
      resp.decision = routeEvent resp.event := by
  have hopt : optTruthy (some key) = true := by
    simp [optTruthy, hkey]
  unfold processIngest
  rw [hopt]
  simp only [Bool.not_true, Bool.false_eq_true, if_false, Option.getD_some]
  rw [hclaim]
  simp only [Bool.not_false, if_true]
  exact ⟨trivial, _, rfl, rfl⟩

theorem processIngest_owned_noop_path (req : IngestRequest) (key : String)
    (shadow : Bool) (actFail : Option String) (ownerId : String) (now : Int)
    (eid : String) (st : ProcState)
    (hkey : key ≠ "")
    (hclaim : (tryClaim st.idem key (candidateEvent req eid now) 120 ownerId now).1.claimed
      = true)
    (hnoop : (candidateEvent req eid now).is_late_event = true ∨ shadow = true) :
    processIngest req (some key) shadow actFail ownerId now eid st =
      (.ok { event := candidateEvent req eid now,
             decision := routeEvent (candidateEvent req eid now) },
       { st with
         idem := markCompleted
           (tryClaim st.idem key (candidateEvent req eid now) 120 ownerId now).2 key
           (((tryClaim st.idem key (candidateEvent req eid now) 120 ownerId now).1.owner_id).getD
             "unknown") now,
         claimCalls := st.claimCalls + 1 }) := by
  have hopt : optTruthy (some key) = true := by
    simp [optTruthy, hkey]
  unfold processIngest
  rw [hopt]
  simp only [Bool.not_true, Bool.false_eq_true, if_false, Option.getD_some]
  rw [hclaim]
  simp only [Bool.not_true, Bool.false_eq_true, if_false]
  rcases hnoop with hlate | hshadow
  · rw [if_pos hlate]
  · rw [hshadow]
    by_cases hlate : (candidateEvent req eid now).is_late_event = true
    · rw [if_pos hlate]
    · rw [if_neg hlate, if_pos rfl]

/-! Claim theorems. -/

/-- Claim C5: the claim states that before the HTTP surface begins accepting
connections the service loads and validates the routing configuration and
aborts startup on failure.  The module-level startup sequence of
`app/main.py` builds the application object and the two stores but never
invokes the configuration loader or any startup-validation entry point, so a
service with an invalid (or missing) routing configuration starts and serves
traffic.  This theorem records that divergence: neither configuration
loading nor validation occurs among the startup actions. -/
theorem C5_startup_never_validates_config :
    StartupAction.loadRoutingConfig ∉ mainStartupActions ∧
    StartupAction.validateConfigs ∉ mainStartupActions := by
  decide

/-- Claim C2: the claim states that the Missing-Idempotency-Key rejection,
the Missing-Gmail-Identifier rejection, and a primary-path Act failure each
produce at least one Failure Sink record.  The pipeline in `app/main.py`
never constructs or notifies a failure sink on any path: at each of the
three failing inputs the request fails as documented but the failure sink
file stays empty. -/
theorem C2_failing_paths_leave_failure_sink_empty :
    (processIngest sampleGmailReq none false none "w" 0 "e1" emptyState).1 =
      .error (.http 400 "Missing Idempotency-Key header") ∧
    (processIngest sampleGmailReq none false none "w" 0 "e1" emptyState).2.sinkFile = [] ∧
    (ingestGmail gNoIdsReq false none "w" 0 "e1" emptyState).1 =
      .error (.http 400
        "Gmail ingest requires message_id or history_id for deterministic idempotency") ∧
    (ingestGmail gNoIdsReq false none "w" 0 "e1" emptyState).2.sinkFile = [] ∧
    (processIngest sampleGmailReq (some "k1") false (some "act exploded") "w" 0 "e1"
        emptyState).1 = .error (.exn "act exploded") ∧
    (processIngest sampleGmailReq (some "k1") false (some "act exploded") "w" 0 "e1"
        emptyState).2.sinkFile = [] := by
  refine ⟨rfl, rfl, rfl, rfl, rfl, rfl⟩

/-- Claim C9 (counterexample): the claim states the structured logger never
raises.  `log_event` opens and appends the durable file with no exception
handling, so when the append fails the error escapes to the caller: at this
concrete input the call returns an escaped exception. -/
theorem C9_counterexample :
    (logEvent false { console := [], file := [] } "t0" "ingest_claimed" []).2 =
      some "OSError: could not open or append logs/events.jsonl" := rfl

/-- Claim C9 (amended): `log_event` emits the line to the console first; if
opening/appending the durable JSON-lines file then fails, the exception
propagates to the caller (it is not swallowed) with the console emission
already performed and the file untouched; only a successful append returns
without raising. -/
theorem C9_log_event_failure_propagates (ok : Bool) (st : LogState)
    (ts eventName : String) (fields : List (String × PyVal)) :
    (ok = true → logEvent ok st ts eventName fields =
      ({ console := st.console ++ [mkLogLine ts eventName fields],
         file := st.file ++ [mkLogLine ts eventName fields] }, none)) ∧
    (ok = false → logEvent ok st ts eventName fields =
      ({ console := st.console ++ [mkLogLine ts eventName fields], file := st.file },
       some "OSError: could not open or append logs/events.jsonl")) := by
  constructor <;> rintro rfl <;> rfl

/-- Witness for C9: the amended theorem evaluated at a failing append on an
empty logger state. -/
theorem C9_witness :
    logEvent false { console := [], file := [] } "t0" "x" [] =
      ({ console := [mkLogLine "t0" "x" []], file := [] },
       some "OSError: could not open or append logs/events.jsonl") :=
  (C9_log_event_failure_propagates false { console := [], file := [] } "t0" "x" []).2 rfl

/-- Claim C10: a non-None incoming history id that is empty or whitespace
only is classified `INVALID_HISTORY_ID` with `is_late=false` (not as an
absent id — `NO_INCOMING_HISTORY_ID` needs the value to be `None`), and
`try_advance` with such a value refuses and leaves the store untouched. -/
theorem C10_blank_history_id_invalid (st : CursorStore) (mailbox s : String)
    (h : pyStrip s = "") :
    checkLate st mailbox (some s) =
      { mailbox := normMailbox mailbox, incoming_history_id := none,
        current_history_id := getCursor st (normMailbox mailbox),
        is_late := false, reason := "INVALID_HISTORY_ID" } ∧
    tryAdvance st mailbox (some s) = (false, st) ∧
    (checkLate st mailbox none).reason = "NO_INCOMING_HISTORY_ID" := by
  have hp : parseHistoryId (some s) = none := by
    simp [parseHistoryId, h]
  refine ⟨?_, ?_, ?_⟩
  · simp [checkLate, hp]
  · simp [tryAdvance, hp]
  · simp [checkLate, parseHistoryId]

/-- Witness for C10: the theorem evaluated at a whitespace-only history id
against an empty store. -/
theorem C10_witness :
    checkLate [] "a@b.c" (some " \t ") =
      { mailbox := normMailbox "a@b.c", incoming_history_id := none,
        current_history_id := getCursor [] (normMailbox "a@b.c"),
        is_late := false, reason := "INVALID_HISTORY_ID" } ∧
    tryAdvance [] "a@b.c" (some " \t ") = (false, []) ∧
    (checkLate [] "a@b.c" none).reason = "NO_INCOMING_HISTORY_ID" :=
  C10_blank_history_id_invalid [] "a@b.c" " \t " rfl

/-- Claim C1: the per-key claim state machine of `try_claim` (SQLite
backend).  (a) an absent key inserts a `claimed` record carrying the
candidate event, owner and lease and returns `claimed=true`; (b) a
`completed` record always refuses with status `completed` and the stored
event, with no lease condition; (c) a `claimed` record with an unexpired
lease refuses with status `claimed` naming the current owner; (d) a
`failed` record, or a `claimed` record whose lease has expired, is
overwritten with the new owner, lease and event, the prior error cleared,
returning `claimed=true`. -/
theorem C1_try_claim_state_machine (st : IdemStore) (key : String) (event : Event)
    (ls : Int) (ow : String) (now : Int) :
    (assocFind key st = none →
      tryClaim st key event ls ow now =
        ({ claimed := true, status := "claimed", owner_id := some ow,
           lease_until := some (now + ls), existing_event := none },
         assocSet key
           { status := "claimed", owner_id := some ow, lease_until := some (now + ls),
             created_at := now, updated_at := now, event := event, last_error := none }
           st)) ∧
    (∀ r, assocFind key st = some r → r.status = "completed" →
      tryClaim st key event ls ow now =
        ({ claimed := false, status := "completed", owner_id := r.owner_id,
           lease_until := r.lease_until, existing_event := some r.event }, st)) ∧
    (∀ r, assocFind key st = some r → r.status = "claimed" →
      leaseExpired r.lease_until now = false →
      tryClaim st key event ls ow now =
        ({ claimed := false, status := "claimed", owner_id := r.owner_id,
           lease_until := r.lease_until, existing_event := some r.event }, st)) ∧
    (∀ r, assocFind key st = some r →
      (r.status = "failed" ∨ (r.status = "claimed" ∧ leaseExpired r.lease_until now = true)) →
      tryClaim st key event ls ow now =
        ({ claimed := true, status := "claimed", owner_id := some ow,
           lease_until := some (now + ls), existing_event := some r.event },
         assocSet key
           { status := "claimed", owner_id := some ow, lease_until := some (now + ls),
             created_at := r.created_at, updated_at := now, event := event,
             last_error := none }
           st)) := by
  refine ⟨?_, ?_, ?_, ?_⟩
  · intro h
    unfold tryClaim
    rw [h]
  · intro r hr hs
    unfold tryClaim
    rw [hr]
    simp only []
    rw [if_pos hs]
  · intro r hr hs hl
    unfold tryClaim
    rw [hr]
    simp only []
    rw [if_neg (by simp [hs]), if_pos (by simp [hs, hl])]
  · intro r hr hd
    unfold tryClaim
    rw [hr]
    simp only []
    rcases hd with hs | ⟨hs, hl⟩
    · rw [if_neg (by simp [hs]), if_neg (by simp [hs])]
    · rw [if_neg (by simp [hs]), if_neg (by simp [hs, hl])]

/-- Witness for C1: all four branches of the state machine evaluated on
concrete stores at instant 10 with a 120-second lease. -/
theorem C1_witness :
    tryClaim [] "k" evMixedCase 120 "w1" 10 =
      ({ claimed := true, status := "claimed", owner_id := some "w1",
         lease_until := some (10 + 120), existing_event := none },
       assocSet "k"
         { status := "claimed", owner_id := some "w1", lease_until := some (10 + 120),
           created_at := 10, updated_at := 10, event := evMixedCase, last_error := none }
         []) ∧
    tryClaim [("k", recCompleted)] "k" evMixedCase 120 "w1" 10 =
      ({ claimed := false, status := "completed", owner_id := recCompleted.owner_id,
         lease_until := recCompleted.lease_until,
         existing_event := some recCompleted.event }, [("k", recCompleted)]) ∧
    tryClaim [("k", recClaimed)] "k" evMixedCase 120 "w1" 10 =
      ({ claimed := false, status := "claimed", owner_id := recClaimed.owner_id,
         lease_until := recClaimed.lease_until,
         existing_event := some recClaimed.event }, [("k", recClaimed)]) ∧
    tryClaim [("k", recFailed)] "k" evMixedCase 120 "w1" 10 =
      ({ claimed := true, status := "claimed", owner_id := some "w1",
         lease_until := some (10 + 120), existing_event := some recFailed.event },
       assocSet "k"
         { status := "claimed", owner_id := some "w1", lease_until := some (10 + 120),
           created_at := recFailed.created_at, updated_at := 10, event := evMixedCase,
           last_error := none }
         [("k", recFailed)]) :=
  ⟨(C1_try_claim_state_machine [] "k" evMixedCase 120 "w1" 10).1 rfl,
   (C1_try_claim_state_machine [("k", recCompleted)] "k" evMixedCase 120 "w1" 10).2.1
     recCompleted rfl rfl,
   (C1_try_claim_state_machine [("k", recClaimed)] "k" evMixedCase 120 "w1" 10).2.2.1
     recClaimed rfl rfl (by decide),
   (C1_try_claim_state_machine [("k", recFailed)] "k" evMixedCase 120 "w1" 10).2.2.2
     recFailed rfl (Or.inl rfl)⟩

/-- Claim C8: Gmail idempotency key derivation with message-id priority —
when a message id is present (even alongside a history id) the key uses the
message-id form over the lowercased mailbox; with only a history id, the
history-id form; with neither, the endpoint rejects with a 400 Bad Request
and returns before any claim attempt, leaving the pipeline state untouched. -/
theorem C8_gmail_key_priority (g : GmailIngestRequest) (shadow : Bool)
    (actFail : Option String) (ownerId : String) (now : Int) (eid : String)
    (st : ProcState) :
    (optTruthy g.message_id = true →
      gmailIdempotencyKey g = .ok ("gmail:mailbox=" ++ pyLower (pyStrip g.mailbox) ++
        ":message_id=" ++ g.message_id.getD "")) ∧
    (optTruthy g.message_id = false → optTruthy g.history_id = true →
      gmailIdempotencyKey g = .ok ("gmail:mailbox=" ++ pyLower (pyStrip g.mailbox) ++
        ":history_id=" ++ g.history_id.getD "")) ∧
    (optTruthy g.message_id = false → optTruthy g.history_id = false →
      ingestGmail g shadow actFail ownerId now eid st =
        (.error (.http 400
          "Gmail ingest requires message_id or history_id for deterministic idempotency"),
         st)) := by
  refine ⟨?_, ?_, ?_⟩
  · intro hm
    simp [gmailIdempotencyKey, hm]
  · intro hm hh
    simp [gmailIdempotencyKey, hm, hh]
  · intro hm hh
    simp [ingestGmail, gmailIdempotencyKey, hm, hh]

/-- Witness for C8: the three branches evaluated on concrete triggers — both
identifiers present, history id only, and neither. -/
theorem C8_witness :
    gmailIdempotencyKey gBothIdsReq =
      .ok "gmail:mailbox=support@example.com:message_id=msg-123" ∧
    gmailIdempotencyKey gHistOnlyReq =
      .ok "gmail:mailbox=support@example.com:history_id=789" ∧
    ingestGmail gNoIdsReq false none "w" 0 "e1" emptyState =
      (.error (.http 400
        "Gmail ingest requires message_id or history_id for deterministic idempotency"),
       emptyState) :=
  ⟨(C8_gmail_key_priority gBothIdsReq false none "w" 0 "e1" emptyState).1 rfl,
   (C8_gmail_key_priority gHistOnlyReq false none "w" 0 "e1" emptyState).2.1 rfl rfl,
   (C8_gmail_key_priority gNoIdsReq false none "w" 0 "e1" emptyState).2.2 rfl rfl⟩

/-- Claim C3: a late event whose idempotency claim succeeds is routed
`NOOP_LATE_EVENT`, the Actuator is never invoked (the invocation counter is
unchanged), the idempotency key is marked completed, and no mailbox cursor
is advanced (cursor store and advance counter unchanged). -/
theorem C3_late_event_noop (req : IngestRequest) (key : String) (shadow : Bool)
    (actFail : Option String) (ownerId : String) (now : Int) (eid : String)
    (st : ProcState)
    (hkey : key ≠ "")
    (hlate : pyTruthy (pyGet req.metadata "is_late_event") = true)
    (hclaim : (tryClaim st.idem key (candidateEvent req eid now) 120 ownerId now).1.claimed
      = true) :
    (processIngest req (some key) shadow actFail ownerId now eid st).1 =
      .ok { event := candidateEvent req eid now,
            decision := routeEvent (candidateEvent req eid now) } ∧
    (routeEvent (candidateEvent req eid now)).route = "NOOP_LATE_EVENT" ∧
    (processIngest req (some key) shadow actFail ownerId now eid st).2.actCalls =
      st.actCalls ∧
    (processIngest req (some key) shadow actFail ownerId now eid st).2.cursor =
      st.cursor ∧
    (processIngest req (some key) shadow actFail ownerId now eid st).2.advanceCalls =
      st.advanceCalls ∧
    (∃ r, assocFind key
        (processIngest req (some key) shadow actFail ownerId now eid st).2.idem = some r ∧
      r.status = "completed") := by
  have hcand : (candidateEvent req eid now).is_late_event = true := hlate
  have hmain := processIngest_owned_noop_path req key shadow actFail ownerId now eid st
    hkey hclaim (Or.inl hcand)
  rw [hmain]
  refine ⟨rfl, ?_, rfl, rfl, rfl, ?_⟩
  · simp [routeEvent, hcand]
  · exact markCompleted_status _ _ _ _ (tryClaim_mem_of_claimed _ _ _ _ _ _ hclaim)

/-- Witness for C3: a late Gmail request claimed against an empty store. -/
theorem C3_witness :
    (processIngest lateGmailReq (some "idem-late-1") false none "w" 0 "e1"
        emptyState).1 =
      .ok { event := candidateEvent lateGmailReq "e1" 0,
            decision := routeEvent (candidateEvent lateGmailReq "e1" 0) } ∧
    (routeEvent (candidateEvent lateGmailReq "e1" 0)).route = "NOOP_LATE_EVENT" ∧
    (processIngest lateGmailReq (some "idem-late-1") false none "w" 0 "e1"
        emptyState).2.actCalls = emptyState.actCalls ∧
    (processIngest lateGmailReq (some "idem-late-1") false none "w" 0 "e1"
        emptyState).2.cursor = emptyState.cursor ∧
    (processIngest lateGmailReq (some "idem-late-1") false none "w" 0 "e1"
        emptyState).2.advanceCalls = emptyState.advanceCalls ∧
    (∃ r, assocFind "idem-late-1"
        (processIngest lateGmailReq (some "idem-late-1") false none "w" 0 "e1"
          emptyState).2.idem = some r ∧ r.status = "completed") :=
  C3_late_event_noop lateGmailReq "idem-late-1" false none "w" 0 "e1" emptyState
    (by decide) rfl rfl

/-- Claim C4 (counterexample): the claim states that with the shadow-mode
flag active the Actuator is never invoked on any path, including the
duplicate/not-claimed path.  On the duplicate-responder path the source
deliberately does not enforce shadow mode and calls `execute_decision`:
with shadow mode on and a key held by another worker under an active lease,
the Actuator invocation counter rises from 0 to 1. -/
theorem C4_counterexample :
    ({ emptyState with idem := [("k1", recClaimed)] } : ProcState).actCalls = 0 ∧
    (processIngest sampleGmailReq (some "k1") true none "w" 0 "e1"
        { emptyState with idem := [("k1", recClaimed)] }).2.actCalls = 1 :=
  ⟨rfl, rfl⟩

/-- Claim C4 (amended): with the shadow-mode flag active, the path that owns
the claim computes the routing Decision, marks the idempotency key
completed, and neither invokes the Actuator nor advances the mailbox
cursor; on the duplicate/not-claimed path a Decision is still computed and
returned, the cursor is still never advanced, but the Actuator is invoked
exactly as it would be without shadow mode (shadow-mode enforcement is
deliberately limited to the single processor holding the claim). -/
theorem C4_shadow_mode (req : IngestRequest) (key : String) (actFail : Option String)
    (ownerId : String) (now : Int) (eid : String) (st : ProcState)
    (hkey : key ≠ "") :
    ((tryClaim st.idem key (candidateEvent req eid now) 120 ownerId now).1.claimed = true →
      (processIngest req (some key) true actFail ownerId now eid st).1 =
        .ok { event := candidateEvent req eid now,
              decision := routeEvent (candidateEvent req eid now) } ∧
      (processIngest req (some key) true actFail ownerId now eid st).2.actCalls =
        st.actCalls ∧
      (processIngest req (some key) true actFail ownerId now eid st).2.cursor =
        st.cursor ∧
      (processIngest req (some key) true actFail ownerId now eid st).2.advanceCalls =
        st.advanceCalls ∧
      (∃ r, assocFind key
          (processIngest req (some key) true actFail ownerId now eid st).2.idem = some r ∧
        r.status = "completed")) ∧
    ((tryClaim st.idem key (candidateEvent req eid now) 120 ownerId now).1.claimed = false →
      (processIngest req (some key) true actFail ownerId now eid st).2.actCalls =
        st.actCalls + 1 ∧
      (processIngest req (some key) true actFail ownerId now eid st).2.cursor =
        st.cursor ∧
      (processIngest req (some key) true actFail ownerId now eid st).2.advanceCalls =
        st.advanceCalls ∧
      ∃ resp, (processIngest req (some key) true actFail ownerId now eid st).1 =
        .ok resp ∧ resp.decision = routeEvent resp.event) := by
  constructor
  · intro hclaim
    have hmain := processIngest_owned_noop_path req key true actFail ownerId now eid st
      hkey hclaim (Or.inr rfl)
    rw [hmain]
    exact ⟨rfl, rfl, rfl, rfl,
      markCompleted_status _ _ _ _ (tryClaim_mem_of_claimed _ _ _ _ _ _ hclaim)⟩
  · intro hclaim
    obtain ⟨hstate, resp, hresp, hdec⟩ :=
      processIngest_duplicate_path req key true actFail ownerId now eid st hkey hclaim
    rw [hstate]
    exact ⟨rfl, rfl, rfl, resp, hresp, hdec⟩

/-- Witness for C4: both parts of the amended theorem evaluated concretely —
an owned claim on an empty store, and a duplicate against a key held by
another worker under an active lease. -/
theorem C4_witness :
    ((processIngest sampleGmailReq (some "idem-shadow-1") true none "w" 0 "e1"
        emptyState).1 =
      .ok { event := candidateEvent sampleGmailReq "e1" 0,
            decision := routeEvent (candidateEvent sampleGmailReq "e1" 0) } ∧
      (processIngest sampleGmailReq (some "idem-shadow-1") true none "w" 0 "e1"
        emptyState).2.actCalls = emptyState.actCalls ∧
      (processIngest sampleGmailReq (some "idem-shadow-1") true none "w" 0 "e1"
        emptyState).2.cursor = emptyState.cursor ∧
      (processIngest sampleGmailReq (some "idem-shadow-1") true none "w" 0 "e1"
        emptyState).2.advanceCalls = emptyState.advanceCalls ∧
      (∃ r, assocFind "idem-shadow-1"
          (processIngest sampleGmailReq (some "idem-shadow-1") true none "w" 0 "e1"
            emptyState).2.idem = some r ∧ r.status = "completed")) ∧
    ((processIngest sampleGmailReq (some "k1") true none "w" 0 "e1"
        { emptyState with idem := [("k1", recClaimed)] }).2.actCalls =
      ({ emptyState with idem := [("k1", recClaimed)] } : ProcState).actCalls + 1 ∧
      (processIngest sampleGmailReq (some "k1") true none "w" 0 "e1"
        { emptyState with idem := [("k1", recClaimed)] }).2.cursor =
      ({ emptyState with idem := [("k1", recClaimed)] } : ProcState).cursor ∧
      (processIngest sampleGmailReq (some "k1") true none "w" 0 "e1"
        { emptyState with idem := [("k1", recClaimed)] }).2.advanceCalls =
      ({ emptyState with idem := [("k1", recClaimed)] } : ProcState).advanceCalls ∧
      ∃ resp, (processIngest sampleGmailReq (some "k1") true none "w" 0 "e1"
        { emptyState with idem := [("k1", recClaimed)] }).1 = .ok resp ∧
        resp.decision = routeEvent resp.event) :=
  ⟨(C4_shadow_mode sampleGmailReq "idem-shadow-1" none "w" 0 "e1" emptyState
      (by decide)).1 rfl,
   (C4_shadow_mode sampleGmailReq "k1" none "w" 0 "e1"
      { emptyState with idem := [("k1", recClaimed)] } (by decide)).2 rfl⟩

/-- Claim C6: the cursor-store contract — with no stored cursor a parseable
incoming value reports `NO_CURSOR` and `is_late=false`; after a successful
advance to `n`, an incoming value below `n` reports `BEHIND_CURSOR` and
`is_late=true`, equal to `n` reports `AT_CURSOR` (not late), above `n`
reports `OK` (not late); and an advance whose value is not strictly greater
than the stored cursor returns `false` and leaves the store unchanged. -/
theorem C6_cursor_monotonicity (st : CursorStore) (mailbox : String) :
    (∀ inc v, parseHistoryId (some inc) = some v →
      getCursor st (normMailbox mailbox) = none →
      checkLate st mailbox (some inc) =
        { mailbox := normMailbox mailbox, incoming_history_id := some v,
          current_history_id := none, is_late := false, reason := "NO_CURSOR" }) ∧
    (∀ h n st2, parseHistoryId (some h) = some n →
      tryAdvance st mailbox (some h) = (true, st2) →
      ∀ inc v, parseHistoryId (some inc) = some v →
        (v < n → checkLate st2 mailbox (some inc) =
          { mailbox := normMailbox mailbox, incoming_history_id := some v,
            current_history_id := some n, is_late := true, reason := "BEHIND_CURSOR" }) ∧
        (v = n → checkLate st2 mailbox (some inc) =
          { mailbox := normMailbox mailbox, incoming_history_id := some v,
            current_history_id := some n, is_late := false, reason := "AT_CURSOR" }) ∧
        (n < v → checkLate st2 mailbox (some inc) =
          { mailbox := normMailbox mailbox, incoming_history_id := some v,
            current_history_id := some n, is_late := false, reason := "OK" })) ∧
    (∀ h v n, parseHistoryId (some h) = some v →
      assocFind (normMailbox mailbox) st = some (some n) → v ≤ n →
      tryAdvance st mailbox (some h) = (false, st)) := by
  refine ⟨?_, ?_, ?_⟩
  · intro inc v hpi hnone
    simp [checkLate, hpi, hnone]
  · intro h n st2 hp hadv inc v hpi
    have hst2 : st2 = assocSet (normMailbox mailbox) (some n) st := by
      unfold tryAdvance at hadv
      rw [hp] at hadv
      simp only [] at hadv
      rcases hf : assocFind (normMailbox mailbox) st with _ | cur
      · rw [hf] at hadv
        simp only [Prod.mk.injEq] at hadv
        exact hadv.2.symm
      · rw [hf] at hadv
        rcases cur with _ | c
        · simp only [Prod.mk.injEq] at hadv
          exact hadv.2.symm
        · simp only [] at hadv
          by_cases hgt : n > c
          · rw [if_pos hgt] at hadv
            simp only [Prod.mk.injEq] at hadv
            exact hadv.2.symm
          · rw [if_neg hgt] at hadv
            simp only [Prod.mk.injEq] at hadv
            exact absurd hadv.1 (by simp)
    have hcur : getCursor st2 (normMailbox mailbox) = some n := by
      rw [hst2]
      exact getCursor_assocSet_norm st mailbox (some n)
    refine ⟨?_, ?_, ?_⟩
    · intro hlt
      have h1 : ¬ n ≤ v := by omega
      simp [checkLate, hpi, hcur, hlt, h1]
    · intro heq
      subst heq
      simp [checkLate, hpi, hcur]
    · intro hgt
      have h1 : ¬ v < n := by omega
      have h2 : ¬ v = n := by omega
      simp [checkLate, hpi, hcur, h1, h2]
  · intro h v n hp hfind hle
    unfold tryAdvance
    rw [hp]
    simp only []
    rw [hfind]
    simp only []
    rw [if_neg (by omega)]

/-- Witness for C6: the spec scenario — empty store reports `NO_CURSOR` for
`5`; after advancing `M@x.com` to `100`, values `99`/`100`/`101` classify
as `BEHIND_CURSOR`/`AT_CURSOR`/`OK`; and with a stored cursor of `50`,
advancing to `49` refuses and leaves the store unchanged. -/
theorem C6_witness :
    checkLate [] "M@x.com" (some "5") =
      { mailbox := normMailbox "M@x.com", incoming_history_id := some 5,
        current_history_id := none, is_late := false, reason := "NO_CURSOR" } ∧
    checkLate (assocSet (normMailbox "M@x.com") (some 100) []) "M@x.com" (some "99") =
      { mailbox := normMailbox "M@x.com", incoming_history_id := some 99,
        current_history_id := some 100, is_late := true, reason := "BEHIND_CURSOR" } ∧
    checkLate (assocSet (normMailbox "M@x.com") (some 100) []) "M@x.com" (some "100") =
      { mailbox := normMailbox "M@x.com", incoming_history_id := some 100,
        current_history_id := some 100, is_late := false, reason := "AT_CURSOR" } ∧
    checkLate (assocSet (normMailbox "M@x.com") (some 100) []) "M@x.com" (some "101") =
      { mailbox := normMailbox "M@x.com", incoming_history_id := some 101,
        current_history_id := some 100, is_late := false, reason := "OK" } ∧
    tryAdvance [("a@b.c", some 50)] "a@b.c" (some "49") = (false, [("a@b.c", some 50)]) :=
  ⟨(C6_cursor_monotonicity [] "M@x.com").1 "5" 5 rfl rfl,
   ((C6_cursor_monotonicity [] "M@x.com").2.1 "100" 100
      (assocSet (normMailbox "M@x.com") (some 100) []) rfl rfl "99" 99 rfl).1
     (by decide),
   ((C6_cursor_monotonicity [] "M@x.com").2.1 "100" 100
      (assocSet (normMailbox "M@x.com") (some 100) []) rfl rfl "100" 100 rfl).2.1 rfl,
   ((C6_cursor_monotonicity [] "M@x.com").2.1 "100" 100
      (assocSet (normMailbox "M@x.com") (some 100) []) rfl rfl "101" 101 rfl).2.2
     (by decide),
   (C6_cursor_monotonicity [("a@b.c", some 50)] "a@b.c").2.2 "49" 49 50 rfl rfl
     (by decide)⟩

/-- Claim C7 (counterexample): the claim states the draft-ticket summary is
the first 80 characters of the extracted payload text.  The router
lower-cases the text before building the summary, so for a payload whose
text is `HELLO WORLD` the summary is `hello world`, not the first 80
characters (`HELLO WORLD`) of the extracted text. -/
theorem C7_counterexample :
    getText evMixedCase = "HELLO WORLD" ∧
    (routeEvent evMixedCase).route = "CREATE_DRAFT_TICKET" ∧
    assocFind "summary" (routeEvent evMixedCase).proposed_action =
      some (.pyStr "hello world") ∧
    (getText evMixedCase).take 80 = "HELLO WORLD" ∧
    assocFind "summary" (routeEvent evMixedCase).proposed_action ≠
      some (.pyStr ((getText evMixedCase).take 80)) := by
  refine ⟨rfl, rfl, rfl, rfl, ?_⟩
  intro hcontra
  rw [show assocFind "summary" (routeEvent evMixedCase).proposed_action =
    some (PyVal.pyStr "hello world") from rfl] at hcontra
  simp only [Option.some.injEq, PyVal.pyStr.injEq] at hcontra
  exact absurd hcontra (by decide)

/-- Claim C7 (amended): for a non-late event the router evaluates its fixed
rules in order — a security keyword in the lower-cased extracted text
escalates to a human with high risk; otherwise an absent or falsy `urgency`
yields `REQUEST_MORE_INFO` with medium risk and
`missing_fields = ["urgency"]`; otherwise `CREATE_DRAFT_TICKET` with low
risk, queue `IT`, priority the lower-cased urgency value, and summary the
first 80 characters of the *lower-cased* text (or `Support request` when no
text was present). -/
theorem C7_router_rules (e : Event) (hne : e.is_late_event = false) :
    (securityKeywords.any (fun k => strContains (pyLower (getText e)) k) = true →
      routeEvent e =
        { event_id := e.event_id, route := "ESCALATE_HUMAN",
          reason := "Security-related keyword detected", risk_level := "high",
          proposed_action := [], decision_source := none }) ∧
    (securityKeywords.any (fun k => strContains (pyLower (getText e)) k) = false →
      pyTruthy (urgencyOf e) = false →
      routeEvent e =
        { event_id := e.event_id, route := "REQUEST_MORE_INFO",
          reason := "Missing required field: urgency", risk_level := "medium",
          proposed_action :=
            [("question", .pyStr "How urgent is this? (low / medium / high)"),
             ("missing_fields", .pyList [.pyStr "urgency"])],
          decision_source := none }) ∧
    (securityKeywords.any (fun k => strContains (pyLower (getText e)) k) = false →
      pyTruthy (urgencyOf e) = true →
      routeEvent e =
        { event_id := e.event_id, route := "CREATE_DRAFT_TICKET",
          reason := "Standard support request", risk_level := "low",
          proposed_action :=
            [("type", .pyStr "create_ticket_draft"),
             ("queue", .pyStr "IT"),
             ("priority", .pyStr (pyLower (pyToString (urgencyOf e)))),
             ("summary", .pyStr (if pyLower (getText e) ≠ ""
               then (pyLower (getText e)).take 80 else "Support request")),
             ("description", match e.payload with
               | .pyDict kvs => .pyDict kvs
               | _ => .pyDict [("text", .pyStr (pyLower (getText e)))])],
          decision_source := none }) := by
  refine ⟨?_, ?_, ?_⟩
  · intro hsec
    unfold routeEvent
    rw [hne]
    simp only [Bool.false_eq_true, if_false, hsec, if_true]
  · intro hsec hurg
    unfold routeEvent
    rw [hne]
    simp only [Bool.false_eq_true, if_false, hsec, hurg, Bool.not_false, if_true]
  · intro hsec hurg
    unfold routeEvent
    rw [hne]
    simp only [Bool.false_eq_true, if_false, hsec, hurg, Bool.not_true, if_true]

/-- Witness for C7: the three rules evaluated on concrete events — a
security keyword, a missing urgency, and a plain mixed-case draft ticket. -/
theorem C7_witness :
    routeEvent evSecurity =
      { event_id := "evt-1", route := "ESCALATE_HUMAN",
        reason := "Security-related keyword detected", risk_level := "high",
        proposed_action := [], decision_source := none } ∧
    routeEvent evNoUrgency =
      { event_id := "evt-1", route := "REQUEST_MORE_INFO",
        reason := "Missing required field: urgency", risk_level := "medium",
        proposed_action :=
          [("question", .pyStr "How urgent is this? (low / medium / high)"),
           ("missing_fields", .pyList [.pyStr "urgency"])],
        decision_source := none } ∧
    routeEvent evMixedCase =
      { event_id := "evt-1", route := "CREATE_DRAFT_TICKET",
        reason := "Standard support request", risk_level := "low",
        proposed_action :=
          [("type", .pyStr "create_ticket_draft"),
           ("queue", .pyStr "IT"),
           ("priority", .pyStr "high"),
           ("summary", .pyStr "hello world"),
           ("description",
             .pyDict [("text", .pyStr "HELLO WORLD"), ("urgency", .pyStr "High")])],
        decision_source := none } :=
  ⟨(C7_router_rules evSecurity rfl).1 rfl,
   (C7_router_rules evNoUrgency rfl).2.1 rfl rfl,
   (C7_router_rules evMixedCase rfl).2.2 rfl rfl⟩

end Intake
